import Mathlib

/-!
Verification of the scolarix-api repository: a shallow embedding of the
query-building layer (`App/Utils/apiFeatures.js`), the grade-aggregation
controller (`App/Controllers/moyenne.js`), the request validator
(`App/Middlewares/validator.js`), the authentication / authorization
middleware (`App/Middlewares/authMiddleware.js`) and the class-listing
controller (`App/Controllers/classe.js`), together with proofs of the
behavioural properties stated in the specification.

Numbers are modelled by `ℚ` (JS numbers on the inputs considered here are
exact decimals), strings by `String`, JS objects by association lists, and
the fallible parts by explicit outcome types.
-/

namespace Scolarix

/-! ## JavaScript string / number primitives used by the embedded code -/

/-- Whitespace characters skipped by `parseInt` / `parseFloat`. -/
def jsWhitespace (c : Char) : Bool :=
  c == ' ' || c == '\t' || c == '\n' || c == '\r'

/-- Value of a list of decimal digit characters. -/
def digitsVal (ds : List Char) : Nat :=
  ds.foldl (fun n c => 10 * n + (c.toNat - '0'.toNat)) 0

/-- Does the first list occur at the head of the second one? -/
def startsWithL : List Char → List Char → Bool
  | [], _ => true
  | _ :: _, [] => false
  | p :: ps, c :: cs => p == c && startsWithL ps cs

/-- Does `pat` occur somewhere inside the second list?
Model of `String.prototype.includes`. -/
def containsSubL (pat : List Char) : List Char → Bool
  | [] => startsWithL pat []
  | c :: cs => startsWithL pat (c :: cs) || containsSubL pat cs

/-- Remove the first occurrence of `pat`.
Model of `String.prototype.replace(pat, '')` for a plain-string pattern. -/
def removeFirstL (pat : List Char) : List Char → List Char
  | [] => []
  | c :: cs =>
    if startsWithL pat (c :: cs) then (c :: cs).drop pat.length
    else c :: removeFirstL pat cs

/-- `value.includes(pat)`. -/
def jsIncludes (s pat : String) : Bool := containsSubL pat.data s.data

/-- `value.replace(pat, '')` (first occurrence only, as in JS). -/
def jsReplaceOnce (s pat : String) : String := ⟨removeFirstL pat.data s.data⟩

/-- `parseInt(s, 10)`: skip whitespace, optional sign, maximal digit run;
`none` models `NaN`. -/
def parseIntJS (s : String) : Option Int :=
  let cs := s.data.dropWhile jsWhitespace
  let signNeg := match cs with | '-' :: _ => true | _ => false
  let cs := match cs with | '-' :: r => r | '+' :: r => r | r => r
  let ds := cs.takeWhile Char.isDigit
  if ds.isEmpty then none
  else some (if signNeg then -(digitsVal ds : Int) else (digitsVal ds : Int))

/-- `parseFloat(s)` restricted to plain decimal numerals (the only shape the
repository ever feeds it); `none` models `NaN`. -/
def parseFloatJS (s : String) : Option ℚ :=
  let cs := s.data.dropWhile jsWhitespace
  let signNeg := match cs with | '-' :: _ => true | _ => false
  let cs := match cs with | '-' :: r => r | '+' :: r => r | r => r
  let ip := cs.takeWhile Char.isDigit
  let rest := cs.drop ip.length
  let fp := match rest with
    | '.' :: r => r.takeWhile Char.isDigit
    | _ => []
  if ip.isEmpty && fp.isEmpty then none
  else
    let q : ℚ :=
      if fp.isEmpty then (digitsVal ip : ℚ)
      else (digitsVal ip : ℚ) + (digitsVal fp : ℚ) / ((10 : ℚ) ^ fp.length)
    some (if signNeg then -q else q)

/-- Split at every occurrence of one separator character. Model of
`String.prototype.split(sep)` for a one-character separator:
`''.split(sep)` is `['']`, separators at the ends yield empty pieces. -/
def splitCharL (sep : Char) : List Char → List (List Char)
  | [] => [[]]
  | c :: cs =>
    if c == sep then [] :: splitCharL sep cs
    else
      match splitCharL sep cs with
      | [] => [[c]]
      | g :: gs => (c :: g) :: gs

/-- `value.split(sep)`. -/
def jsSplitChar (sep : Char) (s : String) : List String :=
  (splitCharL sep s.data).map (fun l => ⟨l⟩)

/-- `value.split(',')`. -/
def jsSplitComma (s : String) : List String :=
  jsSplitChar ',' s

/-- `x || d` for an integer-or-NaN left operand: both `NaN` and `0` are falsy. -/
def jsOrInt (v : Option Int) (d : Int) : Int :=
  match v with
  | none => d
  | some n => if n = 0 then d else n

/-- A JS value stored in a row or request body: number or string. -/
inductive JSVal where
  | num (q : ℚ)
  | str (s : String)
  deriving Repr, DecidableEq

/-- A JS object, as an association list (keys unique in actual JS objects). -/
abbrev JSObj := List (String × JSVal)

/-- Property lookup `obj[key]`; `none` models `undefined`. -/
def getKey (b : JSObj) (k : String) : Option JSVal :=
  (b.find? (fun kv => kv.1 == k)).map (fun kv => kv.2)

end Scolarix

namespace Scolarix.APIFeatures

/-! ## Query Builder (`App/Utils/apiFeatures.js`, class `APIFeatures`) -/

/-- One where-clause condition produced by `filter()`: the Sequelize
operators `Op.gte/gt/lte/lt/in/notIn` or exact equality. The numeric bound
is an `Option ℚ` because `parseFloat` can yield `NaN`. -/
inductive FilterCond where
  | gte (bound : Option ℚ)
  | gt (bound : Option ℚ)
  | lte (bound : Option ℚ)
  | lt (bound : Option ℚ)
  | inList (vs : List String)
  | notIn (vs : List String)
  | eq (v : String)
  deriving Repr, DecidableEq

/-- Control keys excluded from `filter()` (`excludedFields` in the source). -/
def reservedKeys : List String := ["page", "sort", "limit", "fields", "keyword"]

/-- The condition `filter()` builds for one string-valued parameter: the
source tests `value.includes('gte')`, `'gt'`, `'lte'`, `'lt'`, `'in'`,
`'ne'` in that order and uses `value.replace(tok, '')` on the first hit;
no hit means exact equality. -/
def condOf (value : String) : FilterCond :=
  if jsIncludes value "gte" then .gte (parseFloatJS (jsReplaceOnce value "gte"))
  else if jsIncludes value "gt" then .gt (parseFloatJS (jsReplaceOnce value "gt"))
  else if jsIncludes value "lte" then .lte (parseFloatJS (jsReplaceOnce value "lte"))
  else if jsIncludes value "lt" then .lt (parseFloatJS (jsReplaceOnce value "lt"))
  else if jsIncludes value "in" then .inList (jsSplitComma (jsReplaceOnce value "in"))
  else if jsIncludes value "ne" then .notIn (jsSplitComma (jsReplaceOnce value "ne"))
  else .eq value

/-- Assignment `obj[key] = v` on an association list. -/
def setKey (m : List (String × FilterCond)) (k : String) (v : FilterCond) :
    List (String × FilterCond) :=
  if m.any (fun kv => kv.1 == k) then
    m.map (fun kv => if kv.1 == k then (k, v) else kv)
  else m ++ [(k, v)]

/-- `APIFeatures.filter()`: drop the reserved keys, then build
`whereConditions[key] = condOf value` for every remaining parameter. -/
def filter (queryString : List (String × String)) : List (String × FilterCond) :=
  let queryObj := queryString.filter (fun kv => !(reservedKeys.contains kv.1))
  queryObj.foldl (fun conds kv => setKey conds kv.1 (condOf kv.2)) []

/-- Lookup in a built where-plan. -/
def lookupKey (conds : List (String × FilterCond)) (k : String) : Option FilterCond :=
  (conds.find? (fun kv => kv.1 == k)).map (fun kv => kv.2)

/-- Interpretation of one condition against a row (a map from attribute
names to values): the relational meaning of the Sequelize operators. -/
def evalCond (row : String → Option JSVal) : String × FilterCond → Bool
  | (k, .gte b) =>
    match row k, b with
    | some (.num q), some bv => decide (bv ≤ q)
    | _, _ => false
  | (k, .gt b) =>
    match row k, b with
    | some (.num q), some bv => decide (bv < q)
    | _, _ => false
  | (k, .lte b) =>
    match row k, b with
    | some (.num q), some bv => decide (q ≤ bv)
    | _, _ => false
  | (k, .lt b) =>
    match row k, b with
    | some (.num q), some bv => decide (q < bv)
    | _, _ => false
  | (k, .inList vs) =>
    match row k with
    | some (.str s) => vs.contains s
    | _ => false
  | (k, .notIn vs) =>
    match row k with
    | some (.str s) => !(vs.contains s)
    | _ => false
  | (k, .eq v) =>
    match row k with
    | some (.str s) => s == v
    | _ => false

/-- A row satisfies a where-plan iff it satisfies every condition
(the conditions of one Sequelize `where` object conjoin). -/
def matchesWhere (row : String → Option JSVal) (conds : List (String × FilterCond)) : Bool :=
  conds.all (evalCond row)

/-- The pagination window computed by `paginate(resPerPage)`. -/
structure PaginatePlan where
  page : Int
  limit : Int
  offset : Int
  deriving Repr, DecidableEq

/-- `APIFeatures.paginate(resPerPage)`:
`page  = Math.max(parseInt(queryString.page, 10) || 1, 1)`,
`limit = Math.min(parseInt(queryString.limit, 10) || resPerPage, 1000)`,
`offset = (page - 1) * limit`. -/
def paginate (pageParam limitParam : Option String) (resPerPage : Int) : PaginatePlan :=
  let page := max (jsOrInt (pageParam.bind parseIntJS) 1) 1
  let limit := min (jsOrInt (limitParam.bind parseIntJS) resPerPage) 1000
  { page := page, limit := limit, offset := (page - 1) * limit }

/-- The `Op.or` block added by `search()`: one case-insensitive substring
condition per searchable field, all for the same keyword. -/
def searchOr (queryString : List (String × String)) (searchableFields : List String) :
    Option (List (String × String)) :=
  match (queryString.find? (fun kv => kv.1 == "keyword")).map (fun kv => kv.2) with
  | some kw =>
    if searchableFields.isEmpty then none
    else some (searchableFields.map (fun f => (f, kw)))
  | none => none

/-- The full where state of an `APIFeatures` query after
`search().filter()`: the string-keyed conditions plus the symbol-keyed
`Op.or` search block. -/
structure QueryWhere where
  conds : List (String × FilterCond)
  searchBlock : Option (List (String × String))
  deriving Repr, DecidableEq

/-- `new APIFeatures(model, query, { searchableFields }).search().filter()`. -/
def buildWhere (queryString : List (String × String)) (searchableFields : List String) :
    QueryWhere :=
  { conds := filter queryString
    searchBlock := searchOr queryString searchableFields }

end Scolarix.APIFeatures

namespace Scolarix.Validator

/-! ## Request validation (`App/Middlewares/validator.js`) -/

/-- `Joi.string().required().max(maxLen)`: a non-empty string of at most
`maxLen` characters (Joi rejects the empty string and non-string values). -/
def joiString (maxLen : Nat) : JSVal → Bool
  | .str s => decide (1 ≤ s.length) && decide (s.length ≤ maxLen)
  | .num _ => false

/-- `Joi.number().required().min(lo).max(hi)`: a number in `[lo, hi]`
(Joi also converts a fully-numeric string, modelled via `parseFloatJS`
applied to strings with no trailing garbage). -/
def joiNumber (lo hi : ℚ) : JSVal → Bool
  | .num q => decide (lo ≤ q) && decide (q ≤ hi)
  | .str s =>
    match parseFloatJS s with
    | some q => (s.data.all (fun c => !(jsWhitespace c))
        && s = toString q) && decide (lo ≤ q) && decide (q ≤ hi)
    | none => false

/-- `moyenneCreateSchema` under `validate`'s `{ allowUnknown: false }`:
keys are limited to `matriculEleve`, `codeCompo`, `moyenne`, all three are
required, with `Joi.string().max(20)`, `Joi.string().max(10)` and
`Joi.number().min(0).max(10)` respectively. -/
def moyenneCreateSchema (b : JSObj) : Bool :=
  b.all (fun kv => ["matriculEleve", "codeCompo", "moyenne"].contains kv.1)
  && (match getKey b "matriculEleve" with
      | some v => joiString 20 v
      | none => false)
  && (match getKey b "codeCompo" with
      | some v => joiString 10 v
      | none => false)
  && (match getKey b "moyenne" with
      | some v => joiNumber 0 10 v
      | none => false)

/-- `noteCreateSchema` under `{ allowUnknown: false }`: required keys
`matriculEleve` (string, max 20), `codeEva` (string, max 10), `codeCompo`
(string, max 10), `note` (number in `[0, 10]`), every other key rejected. -/
def noteCreateSchema (b : JSObj) : Bool :=
  b.all (fun kv => ["matriculEleve", "codeEva", "codeCompo", "note"].contains kv.1)
  && (match getKey b "matriculEleve" with
      | some v => joiString 20 v
      | none => false)
  && (match getKey b "codeEva" with
      | some v => joiString 10 v
      | none => false)
  && (match getKey b "codeCompo" with
      | some v => joiString 10 v
      | none => false)
  && (match getKey b "note" with
      | some v => joiNumber 0 10 v
      | none => false)

/-- Outcome of `Validator.validate(data, schema)`. On a Joi error the
source executes `throw new new ErrorResponse(messages, 'VALIDATION_ERROR',
statusCode, ...)`: the outer `new` is applied to the freshly built
`ErrorResponse` instance, which is not a constructor, so the line raises a
`TypeError` instead of the intended `ErrorResponse`. -/
inductive ValidateOutcome where
  | passed
  | thrownTypeError
  deriving Repr, DecidableEq

/-- `Validator.validate` specialised to a boolean schema. -/
def validate (b : JSObj) (schema : JSObj → Bool) : ValidateOutcome :=
  if schema b then .passed else .thrownTypeError

end Scolarix.Validator

namespace Scolarix.MoyenneController

/-! ## Aggregation (`App/Controllers/moyenne.js`, `calculateMoyenne`) -/

open Scolarix.Validator

/-- One `Note` row joined to its `Evaluation` (`include: evaluationType`):
the grade value and the evaluation type's coefficient. -/
structure NoteRow where
  matriculEleve : String
  codeEva : String
  codeCompo : String
  note : ℚ
  coeficient : ℚ
  deriving Repr, DecidableEq

/-- One persisted `Moyenne` row (composite key student × composition). -/
structure MoyenneRow where
  matriculEleve : String
  codeCompo : String
  moyenne : ℚ
  deriving Repr, DecidableEq

/-- `db.Note.findAll({ where: { matriculEleve, codeCompo }, include: ... })`. -/
def fetchNotes (store : List NoteRow) (m c : String) : List NoteRow :=
  store.filter (fun r => r.matriculEleve == m && r.codeCompo == c)

/-- The weighted total
`notes.reduce((sum, note) => sum + note.note * note.evaluationType.coeficient, 0)`. -/
def total (notes : List NoteRow) : ℚ :=
  notes.foldl (fun sum n => sum + n.note * n.coeficient) 0

/-- `notes.reduce((sum, note) => sum + note.evaluationType.coeficient, 0)`. -/
def totalCoef (notes : List NoteRow) : ℚ :=
  notes.foldl (fun sum n => sum + n.coeficient) 0

/-- `const moyenne = totalCoef === 0 ? 0 : total / totalCoef`. -/
def moyenneOf (notes : List NoteRow) : ℚ :=
  if totalCoef notes = 0 then 0 else total notes / totalCoef notes

/-- Result of one `calculateMoyenne` run: an error passed to `next`
(code and HTTP status) or a JSON success response, each together with the
`Moyenne` store after the run. -/
inductive CalcOutcome where
  | error (code : String) (status : Nat) (moyStore : List MoyenneRow)
  | ok (status : Nat) (created : Bool) (value : ℚ) (moyStore : List MoyenneRow)
  deriving Repr, DecidableEq

/-- `Moyenne.findOrCreate({ where: { matriculEleve, codeCompo } })`'s find
part. -/
def findMoyenne (store : List MoyenneRow) (m c : String) : Option MoyenneRow :=
  store.find? (fun r => r.matriculEleve == m && r.codeCompo == c)

/-- Lines 59–93 of `moyenne.js`, given the already-extracted pair: fetch
the notes, fail with `NO_GRADES`/404 when none exist, compute the weighted
average, then `findOrCreate` (201 on create) or `record.update` (200). -/
def calculateMoyenne (noteStore : List NoteRow) (moyStore : List MoyenneRow)
    (matriculEleve codeCompo : String) : CalcOutcome :=
  let notes := fetchNotes noteStore matriculEleve codeCompo
  if notes.length = 0 then
    .error "NO_GRADES" 404 moyStore
  else
    let moyenne := moyenneOf notes
    match findMoyenne moyStore matriculEleve codeCompo with
    | some _ =>
      .ok 200 false moyenne
        (moyStore.map (fun r =>
          if r.matriculEleve == matriculEleve && r.codeCompo == codeCompo then
            { r with moyenne := moyenne }
          else r))
    | none =>
      .ok 201 true moyenne
        (moyStore ++ [{ matriculEleve := matriculEleve, codeCompo := codeCompo,
                        moyenne := moyenne }])

/-- The whole request handler `calculateMoyenne(request, ...)`:
`validator.validate(request.body, moyenneCreateSchema)` first (a failure
raises the `TypeError` of `validator.js:31`, which `handleError` converts
to `SERVER_ERROR`/500), then `const { eleve, compos } = request.body` —
the two keys the schema always rejects — and the lines 59–93 logic on that
pair. A pair that is `undefined` is rejected by Sequelize's `where`
parser, which `handleError` also surfaces as `SERVER_ERROR`/500. -/
def calculateMoyenneRequest (body : JSObj) (noteStore : List NoteRow)
    (moyStore : List MoyenneRow) : CalcOutcome :=
  match Validator.validate body moyenneCreateSchema with
  | .thrownTypeError => .error "SERVER_ERROR" 500 moyStore
  | .passed =>
    match getKey body "eleve", getKey body "compos" with
    | some (.str m), some (.str c) => calculateMoyenne noteStore moyStore m c
    | _, _ => .error "SERVER_ERROR" 500 moyStore

end Scolarix.MoyenneController

namespace Scolarix.NoteController

/-! ## Note creation (`App/Controllers/note.js`, `createNote`) -/

open Scolarix.Validator Scolarix.MoyenneController

/-- Result of one `createNote` run, with the `Note` store after the run. -/
inductive CreateNoteOutcome where
  | error (code : String) (status : Nat) (noteStore : List NoteRow)
  | created (status : Nat) (noteStore : List NoteRow)
  deriving Repr, DecidableEq

/-- `createNote(request, ...)`: `validate(request.body, noteCreateSchema)`
(failure raises the `validator.js:31` `TypeError`, surfaced by
`handleError` as `SERVER_ERROR`/500 before any persistence), then
`const { eleve, evaluation, compos, note } = request.body` — keys the
schema always rejects — and `Note.create` on those values; `undefined`
key fields violate the model's not-null constraints, again surfaced as
`SERVER_ERROR`/500. -/
def createNote (body : JSObj) (noteStore : List NoteRow) (coefOf : String → ℚ) :
    CreateNoteOutcome :=
  match Validator.validate body noteCreateSchema with
  | .thrownTypeError => .error "SERVER_ERROR" 500 noteStore
  | .passed =>
    match getKey body "eleve", getKey body "evaluation", getKey body "compos",
        getKey body "note" with
    | some (.str m), some (.str ev), some (.str c), some (.num q) =>
      .created 201 (noteStore ++
        [{ matriculEleve := m, codeEva := ev, codeCompo := c, note := q,
           coeficient := coefOf ev }])
    | _, _, _, _ => .error "SERVER_ERROR" 500 noteStore

end Scolarix.NoteController

namespace Scolarix.AuthMiddleware

/-! ## Authentication / authorization (`App/Middlewares/authMiddleware.js`) -/

/-- A persisted `User` row, with the attributes `authenticate` selects. -/
structure UserRow where
  userId : Int
  username : String
  userRole : String
  ecoleId : Option String
  deriving Repr, DecidableEq

/-- The identity attached to `req.auth` on success. -/
structure AuthInfo where
  userId : Int
  username : String
  userRole : String
  ecoleId : Option String
  deriving Repr, DecidableEq

/-- Outcome of `jwt.verify(token, secret)`, abstracting the token
primitive: success carries the decoded `userId`; the two failure modes are
the error names the middleware dispatches on (`TokenExpiredError`,
`JsonWebTokenError`). -/
inductive VerifyOutcome where
  | ok (userId : Int)
  | expired
  | malformed
  deriving Repr, DecidableEq

/-- Outcome of the `authenticate` middleware: a JSON error response
(status, code) or success with the identity attached to `req.auth`.
`configError` is the missing-`JWT_SECRET` path (whose `ErrorResponse`
arguments are passed in a shifted order in the source). -/
inductive AuthOutcome where
  | errorResp (status : Nat) (code : String)
  | configError
  | success (auth : AuthInfo)
  deriving Repr, DecidableEq

/-- `const token = authHeader && authHeader.split(' ')[1]`, with the
falsiness checks of `if (!token)`. -/
def extractToken (header : Option String) : Option String :=
  match header with
  | none => none
  | some h =>
    if h = "" then none
    else
      match (jsSplitChar ' ' h).get? 1 with
      | some t => if t = "" then none else some t
      | none => none

/-- `AuthMiddleware.authenticate`: missing token → 401 `AUTH_REQUIRED`;
missing secret → the configuration error; `jwt.verify` dispatch → 401
`TOKEN_EXPIRED` / `TOKEN_MALFORMED`; `db.User.findByPk(decoded.userId)`
miss → 401 `USER_NOT_FOUND`; otherwise attach
`{userId, username, userRole, ecoleId}`. -/
def authenticate (header : Option String) (secretPresent : Bool)
    (verify : String → VerifyOutcome) (userStore : List UserRow) : AuthOutcome :=
  match extractToken header with
  | none => .errorResp 401 "AUTH_REQUIRED"
  | some tok =>
    if !secretPresent then .configError
    else
      match verify tok with
      | .expired => .errorResp 401 "TOKEN_EXPIRED"
      | .malformed => .errorResp 401 "TOKEN_MALFORMED"
      | .ok uid =>
        match userStore.find? (fun u => u.userId == uid) with
        | none => .errorResp 401 "USER_NOT_FOUND"
        | some u =>
          .success { userId := u.userId, username := u.username,
                     userRole := u.userRole, ecoleId := u.ecoleId }

/-- A resource row used by the default ownership check: primary key plus
integer-valued attributes (`resource[ownerField] === req.auth.userId`). -/
structure ResourceRow where
  pk : String
  attrs : List (String × Int)
  deriving Repr, DecidableEq

/-- The `options` object taken by `authorize`. The entity collection
(`options.model`) is its list of rows; the custom predicate
(`options.isOwner`) receives the identity and the resource id. -/
structure AuthorizeOptions where
  ownershipRequired : Bool
  ownerField : Option String
  idParam : Option String
  isOwner : Option (Option AuthInfo → Option String → Bool)
  model : Option (List ResourceRow)

/-- Outcome of the `authorize` middleware. `configError` is the
`throw new ErrorResponse('Configuration ...', 500, { code:
'AUTH_CONFIG_ERROR', ... })` path; note the source passes `500` in the
constructor's `code` slot and the details object in its `statusCode` slot. -/
inductive AuthzOutcome where
  | forbidden
  | ownershipDenied
  | configError
  | allowed
  deriving Repr, DecidableEq

/-- `AuthMiddleware.authorize(requiredRoles, options)` applied to a request
whose resolved identity is `auth` (`none` when unauthenticated) and whose
URL parameter `options.idParam || 'id'` holds `resourceId`. The custom
`isOwner` predicate is consulted only inside the `if (options.model)`
branch; without a model the config error is thrown even when a predicate
is supplied. -/
def authorize (requiredRoles : List String) (options : AuthorizeOptions)
    (auth : Option AuthInfo) (resourceId : Option String) : AuthzOutcome :=
  if requiredRoles.length > 0
      && !(match auth with
           | some a => requiredRoles.contains a.userRole
           | none => false) then
    .forbidden
  else if options.ownershipRequired then
    let ownerField := options.ownerField.getD "userId"
    match options.model with
    | some rows =>
      let isOwnerAuthorized : Bool :=
        match options.isOwner with
        | some custom => custom auth resourceId
        | none =>
          match resourceId.bind (fun rid => rows.find? (fun r => r.pk == rid)) with
          | some r =>
            match (r.attrs.find? (fun kv => kv.1 == ownerField)).map (fun kv => kv.2),
                auth with
            | some ownerVal, some a => ownerVal == a.userId
            | _, _ => false
          | none => false
      if isOwnerAuthorized then .allowed else .ownershipDenied
    | none => .configError
  else .allowed

end Scolarix.AuthMiddleware

namespace Scolarix.ClasseController

/-! ## Class listing (`App/Controllers/classe.js`, `getAll`) -/

open Scolarix.APIFeatures Scolarix.AuthMiddleware

/-- Spread merge `{ ...a, ...{ k: v } }` of a single-key object (the only
shape the controller spreads): the key is overridden in place when present
in `a` and appended otherwise — exactly the assignment `setKey`. -/
def jsSpreadMergeOne (a : List (String × FilterCond)) (k : String) (v : FilterCond) :
    List (String × FilterCond) :=
  setKey a k v

/-- Outcome of `ClasseController.getAll`: the early empty response for a
school-less Teacher, or the where state of the executed query. -/
inductive GetAllOutcome where
  | emptyOk (status : Nat) (count totalCount : Nat)
  | runQuery (queryWhere : QueryWhere)
  deriving Repr, DecidableEq

/-- `ClasseController.getAll`: when `request.auth?.userRole === 'Teacher'`,
look the user up (`db.User.findByPk`, modelled by `fetchedUser`); with a
school the role filter `{ ecoleId }` is spread-merged over the
`APIFeatures` where; without one the controller returns
`200 {count: 0, totalCount: 0, classes: []}` at once; non-Teachers get the
`APIFeatures` where unchanged. Searchable fields are `['libelle']`. -/
def getAll (auth : Option AuthInfo) (fetchedUser : Option UserRow)
    (queryString : List (String × String)) : GetAllOutcome :=
  let base := buildWhere queryString ["libelle"]
  if (auth.map (fun a => a.userRole)) = some "Teacher" then
    match fetchedUser with
    | some u =>
      match u.ecoleId with
      | some e =>
        .runQuery { base with
          conds := jsSpreadMergeOne base.conds "ecoleId" (.eq e) }
      | none => .emptyOk 200 0 0
    | none => .emptyOk 200 0 0
  else
    .runQuery base

end Scolarix.ClasseController


namespace Scolarix

/-! ## Helper lemmas -/

/-- A `reduce`-style left fold of additions equals the sum of the mapped list. -/
theorem foldl_add_eq_sum {α : Type} (f : α → ℚ) :
    ∀ (l : List α) (a : ℚ), l.foldl (fun s x => s + f x) a = a + (l.map f).sum := by
  intro l
  induction l with
  | nil => simp
  | cons x xs ih =>
    intro a
    simp only [List.foldl_cons, List.map_cons, List.sum_cons, ih]
    ring

/-- In an association list with distinct keys, `find?` at a present key
returns exactly the stored pair. -/
theorem find_key_of_nodup {α : Type} :
    ∀ (l : List (String × α)) (k : String) (v : α),
      (l.map Prod.fst).Nodup → (k, v) ∈ l →
      l.find? (fun kv => kv.1 == k) = some (k, v) := by
  intro l
  induction l with
  | nil => intro k v _ hmem; cases hmem
  | cons hd tl ih =>
    intro k v hnd hmem
    rw [List.map_cons, List.nodup_cons] at hnd
    rcases List.mem_cons.mp hmem with heq | hmem'
    · subst heq
      exact List.find?_cons_of_pos _ (by simp)
    · have hk : k ∈ tl.map Prod.fst := List.mem_map.mpr ⟨(k, v), hmem', rfl⟩
      have hne : ¬ ((fun kv => kv.1 == k) hd = true) := by
        simp only [beq_iff_eq]
        intro h
        exact hnd.1 (h ▸ hk)
      have hstep : List.find? (fun kv => kv.1 == k) (hd :: tl)
          = List.find? (fun kv => kv.1 == k) tl :=
        List.find?_cons_of_neg tl hne
      rw [hstep]
      exact ih k v hnd.2 hmem'

/-- `find?` misses every key absent from the association list. -/
theorem find_key_of_not_mem {α : Type} (l : List (String × α)) (k : String)
    (h : ∀ kv ∈ l, kv.1 ≠ k) : l.find? (fun kv => kv.1 == k) = none := by
  rw [List.find?_eq_none]
  intro kv hkv hbeq
  exact h kv hkv (beq_iff_eq.mp hbeq)

end Scolarix

namespace Scolarix.APIFeatures

/-- Appending a fresh key is a plain append. -/
theorem setKey_fresh (m : List (String × FilterCond)) (k : String) (v : FilterCond)
    (h : m.any (fun kv => kv.1 == k) = false) : setKey m k v = m ++ [(k, v)] := by
  unfold setKey
  rw [h]
  simp

/-- The `filter()` fold over parameters with pairwise-distinct keys appends
one condition per parameter. -/
theorem filter_foldl_eq (l : List (String × String)) :
    ∀ acc : List (String × FilterCond),
      (∀ kv ∈ l, acc.any (fun c => c.1 == kv.1) = false) →
      (l.map Prod.fst).Nodup →
      l.foldl (fun conds kv => setKey conds kv.1 (condOf kv.2)) acc
        = acc ++ l.map (fun kv => (kv.1, condOf kv.2)) := by
  induction l with
  | nil => intro acc _ _; simp
  | cons hd tl ih =>
    intro acc hacc hnd
    rw [List.map_cons, List.nodup_cons] at hnd
    rw [List.foldl_cons,
      setKey_fresh acc hd.1 (condOf hd.2) (hacc hd (List.mem_cons_self hd tl)),
      ih (acc ++ [(hd.1, condOf hd.2)]) ?fresh hnd.2]
    · simp
    case fresh =>
      intro kv hkv
      have h2 := hacc kv (List.mem_cons_of_mem _ hkv)
      have h3 : (hd.1 == kv.1) = false := by
        simp only [beq_eq_false_iff_ne, ne_eq]
        intro h
        exact hnd.1 (h ▸ List.mem_map.mpr ⟨kv, hkv, rfl⟩)
      simp [List.any_append, h2, h3]

/-- For a query string with pairwise-distinct parameter names, `filter()`
is exactly the per-parameter map over the non-reserved parameters. -/
theorem filter_eq_map (qs : List (String × String)) (hnd : (qs.map Prod.fst).Nodup) :
    filter qs = (qs.filter (fun kv => !(reservedKeys.contains kv.1))).map
      (fun kv => (kv.1, condOf kv.2)) := by
  unfold filter
  apply filter_foldl_eq
  · intro kv _; rfl
  · exact List.Nodup.sublist ((List.filter_sublist qs).map Prod.fst) hnd

end Scolarix.APIFeatures

namespace Scolarix.APIFeatures

/-- Assigning key `k` makes it present with the assigned condition. -/
theorem lookupKey_setKey_hit (m : List (String × FilterCond)) (k : String) (v : FilterCond) :
    lookupKey (setKey m k v) k = some v := by
  unfold setKey lookupKey
  by_cases hany : m.any (fun kv => kv.1 == k) = true
  · rw [if_pos hany, List.find?_map]
    have hp : ((fun kv : String × FilterCond => kv.1 == k) ∘
        (fun kv : String × FilterCond => if kv.1 == k then (k, v) else kv))
        = (fun kv : String × FilterCond => kv.1 == k) := by
      funext kv
      rw [Function.comp_apply]
      by_cases hk : kv.1 == k
      · simp [hk]
      · simp [hk]
    rw [hp]
    cases hfind : m.find? (fun kv : String × FilterCond => kv.1 == k) with
    | none =>
      exfalso
      rcases List.any_eq_true.mp hany with ⟨kv0, hmem, hp0⟩
      exact (List.find?_eq_none.mp hfind) kv0 hmem hp0
    | some kv1 =>
      have hkey := List.find?_some hfind
      simp only [] at hkey
      simp [hkey, beq_iff_eq.mp hkey]
  · rw [if_neg hany, List.find?_append]
    have hnone : m.find? (fun kv : String × FilterCond => kv.1 == k) = none := by
      rw [List.find?_eq_none]
      intro kv hkv hpkv
      exact hany (List.any_eq_true.mpr ⟨kv, hkv, hpkv⟩)
    simp [hnone]

/-- Assigning key `k` leaves every other key's condition unchanged. -/
theorem lookupKey_setKey_miss (m : List (String × FilterCond)) (k : String) (v : FilterCond)
    (k' : String) (hne : k' ≠ k) :
    lookupKey (setKey m k v) k' = lookupKey m k' := by
  unfold setKey lookupKey
  by_cases hany : m.any (fun kv => kv.1 == k) = true
  · rw [if_pos hany, List.find?_map]
    have hp : ((fun kv : String × FilterCond => kv.1 == k') ∘
        (fun kv : String × FilterCond => if kv.1 == k then (k, v) else kv))
        = (fun kv : String × FilterCond => kv.1 == k') := by
      funext kv
      rw [Function.comp_apply]
      by_cases hk : kv.1 == k
      · have h1 : kv.1 = k := beq_iff_eq.mp hk
        have h2 : (k == k') = false := beq_eq_false_iff_ne.mpr (fun h => hne h.symm)
        simp [hk, h1, h2]
      · simp [hk]
    rw [hp]
    cases hfind : m.find? (fun kv : String × FilterCond => kv.1 == k') with
    | none => simp
    | some kv1 =>
      have hkey := List.find?_some hfind
      simp only [] at hkey
      have hkne : (kv1.1 == k) = false := by
        rw [beq_eq_false_iff_ne]
        intro h
        exact hne (h ▸ beq_iff_eq.mp hkey).symm
      simp [hkne, beq_eq_false_iff_ne.mp hkne]
  · rw [if_neg hany, List.find?_append]
    have hkne : (k == k') = false := beq_eq_false_iff_ne.mpr (fun h => hne h.symm)
    cases hfind : m.find? (fun kv : String × FilterCond => kv.1 == k') with
    | none => simp [hkne]
    | some kv1 => simp

end Scolarix.APIFeatures

namespace Scolarix.MoyenneController

/-- The `reduce` computing the weighted total is the sum of the products. -/
theorem total_eq_sum (notes : List NoteRow) :
    total notes = (notes.map (fun n => n.note * n.coeficient)).sum := by
  unfold total
  rw [foldl_add_eq_sum (fun n : NoteRow => n.note * n.coeficient) notes 0, zero_add]

/-- The `reduce` computing the coefficient total is the sum of coefficients. -/
theorem totalCoef_eq_sum (notes : List NoteRow) :
    totalCoef notes = (notes.map (fun n => n.coeficient)).sum := by
  unfold totalCoef
  rw [foldl_add_eq_sum (fun n : NoteRow => n.coeficient) notes 0, zero_add]

/-- Appending the freshly created row makes the pair's `Moyenne` findable. -/
theorem findMoyenne_append (moyStore : List MoyenneRow) (m c : String) (q : ℚ)
    (h : findMoyenne moyStore m c = none) :
    findMoyenne (moyStore ++ [⟨m, c, q⟩]) m c = some ⟨m, c, q⟩ := by
  unfold findMoyenne at h ⊢
  rw [List.find?_append, h]
  simp

/-- The `record.update` map keeps the row keys, so the pair stays findable,
now carrying the recomputed value. -/
theorem findMoyenne_update (moyStore : List MoyenneRow) (m c : String) (q : ℚ)
    (r0 : MoyenneRow) (h : findMoyenne moyStore m c = some r0) :
    findMoyenne
      (moyStore.map (fun r =>
        if r.matriculEleve == m && r.codeCompo == c then { r with moyenne := q } else r))
      m c = some { r0 with moyenne := q } := by
  unfold findMoyenne at h ⊢
  rw [List.find?_map]
  have hp : ((fun r : MoyenneRow => r.matriculEleve == m && r.codeCompo == c) ∘
      (fun r : MoyenneRow =>
        if r.matriculEleve == m && r.codeCompo == c then { r with moyenne := q } else r))
      = (fun r : MoyenneRow => r.matriculEleve == m && r.codeCompo == c) := by
    funext r
    rw [Function.comp_apply]
    by_cases hr : (r.matriculEleve == m && r.codeCompo == c) = true
    · simp [hr]
    · simp [hr]
  rw [hp, h]
  have hr0 := List.find?_some h
  simp only [] at hr0
  simp only [Option.map_some']
  rw [if_pos hr0]

/-- Claim C1: for every non-empty fetched `Note` set of a (student,
composition) pair, `calculateMoyenne` stores
Σ(note × coefficient) / Σ(coefficient) as the pair's average, and stores 0
when Σ(coefficient) is zero instead of failing. -/
theorem claim_C1_weighted_average (noteStore : List NoteRow) (moyStore : List MoyenneRow)
    (m c : String) (h : fetchNotes noteStore m c ≠ []) :
    (∃ store1, calculateMoyenne noteStore moyStore m c
        = .ok (if (findMoyenne moyStore m c).isSome then 200 else 201)
            (findMoyenne moyStore m c).isNone
            (moyenneOf (fetchNotes noteStore m c)) store1
      ∧ ∃ r, findMoyenne store1 m c = some r
          ∧ r.moyenne = moyenneOf (fetchNotes noteStore m c))
    ∧ (((fetchNotes noteStore m c).map (fun n => n.coeficient)).sum ≠ 0 →
        moyenneOf (fetchNotes noteStore m c)
          = ((fetchNotes noteStore m c).map (fun n => n.note * n.coeficient)).sum
            / ((fetchNotes noteStore m c).map (fun n => n.coeficient)).sum)
    ∧ (((fetchNotes noteStore m c).map (fun n => n.coeficient)).sum = 0 →
        moyenneOf (fetchNotes noteStore m c) = 0) := by
  have hlen : ¬ (fetchNotes noteStore m c).length = 0 := by
    intro h0
    exact h (List.length_eq_zero.mp h0)
  refine ⟨?store, ?nonzero, ?zero⟩
  case store =>
    unfold calculateMoyenne
    rw [if_neg hlen]
    cases hfind : findMoyenne moyStore m c with
    | none =>
      exact ⟨_, rfl, ⟨m, c, moyenneOf (fetchNotes noteStore m c)⟩,
        findMoyenne_append moyStore m c _ hfind, rfl⟩
    | some r0 =>
      exact ⟨_, rfl, { r0 with moyenne := moyenneOf (fetchNotes noteStore m c) },
        findMoyenne_update moyStore m c _ r0 hfind, rfl⟩
  case nonzero =>
    intro hsum
    unfold moyenneOf
    rw [totalCoef_eq_sum, total_eq_sum, if_neg hsum]
  case zero =>
    intro hsum
    unfold moyenneOf
    rw [totalCoef_eq_sum, if_pos hsum]

/-- Claim C1 witness: the spec's example — notes (8, coefficient 2) and
(6, coefficient 1) yield a stored average of 22/3. -/
theorem claim_C1_weighted_average_witness :
    ((∃ store1, calculateMoyenne
          [⟨"E1", "EV1", "C1", 8, 2⟩, ⟨"E1", "EV2", "C1", 6, 1⟩] [] "E1" "C1"
        = .ok (if (findMoyenne ([] : List MoyenneRow) "E1" "C1").isSome then 200 else 201)
            (findMoyenne ([] : List MoyenneRow) "E1" "C1").isNone
            (moyenneOf (fetchNotes
              [⟨"E1", "EV1", "C1", 8, 2⟩, ⟨"E1", "EV2", "C1", 6, 1⟩] "E1" "C1")) store1
      ∧ ∃ r, findMoyenne store1 "E1" "C1" = some r
          ∧ r.moyenne = moyenneOf (fetchNotes
              [⟨"E1", "EV1", "C1", 8, 2⟩, ⟨"E1", "EV2", "C1", 6, 1⟩] "E1" "C1")))
    ∧ moyenneOf (fetchNotes
        [⟨"E1", "EV1", "C1", 8, 2⟩, ⟨"E1", "EV2", "C1", 6, 1⟩] "E1" "C1") = 22 / 3 := by
  refine ⟨(claim_C1_weighted_average
    [⟨"E1", "EV1", "C1", 8, 2⟩, ⟨"E1", "EV2", "C1", 6, 1⟩] [] "E1" "C1" (by decide)).1, ?_⟩
  show moyenneOf [⟨"E1", "EV1", "C1", 8, 2⟩, ⟨"E1", "EV2", "C1", 6, 1⟩] = 22 / 3
  norm_num [moyenneOf, total, totalCoef, List.foldl]

/-- Claim C6: with the `Note` set unchanged and no pre-existing `Average`,
the first `calculateMoyenne` call creates the row (201, created), the
second call reports it as not newly created (200) with the same stored
value, and leaves the store unchanged. -/
theorem claim_C6_upsert_idempotent (noteStore : List NoteRow) (moyStore : List MoyenneRow)
    (m c : String) (hnotes : fetchNotes noteStore m c ≠ [])
    (habsent : findMoyenne moyStore m c = none) :
    ∃ v store1,
      calculateMoyenne noteStore moyStore m c = .ok 201 true v store1
      ∧ calculateMoyenne noteStore store1 m c = .ok 200 false v store1
      ∧ findMoyenne store1 m c = some ⟨m, c, v⟩ := by
  have hlen : ¬ (fetchNotes noteStore m c).length = 0 := by
    intro h0
    exact hnotes (List.length_eq_zero.mp h0)
  refine ⟨moyenneOf (fetchNotes noteStore m c),
    moyStore ++ [⟨m, c, moyenneOf (fetchNotes noteStore m c)⟩], ?first, ?second, ?found⟩
  case first =>
    unfold calculateMoyenne
    rw [if_neg hlen, habsent]
  case second =>
    unfold calculateMoyenne
    rw [if_neg hlen, findMoyenne_append moyStore m c _ habsent]
    have habsent' : List.find?
        (fun r : MoyenneRow => r.matriculEleve == m && r.codeCompo == c) moyStore = none :=
      habsent
    have hpred : ∀ r ∈ moyStore, (r.matriculEleve == m && r.codeCompo == c) = false := by
      intro r hr
      have hnone := List.find?_eq_none.mp habsent' r hr
      cases hb : (r.matriculEleve == m && r.codeCompo == c) with
      | false => rfl
      | true => exact absurd hb hnone
    have hmap : (moyStore ++ [(⟨m, c, moyenneOf (fetchNotes noteStore m c)⟩ : MoyenneRow)]).map
        (fun r => if r.matriculEleve == m && r.codeCompo == c
          then { r with moyenne := moyenneOf (fetchNotes noteStore m c) } else r)
        = moyStore ++ [⟨m, c, moyenneOf (fetchNotes noteStore m c)⟩] := by
      rw [List.map_append]
      have h1 : moyStore.map
          (fun r => if r.matriculEleve == m && r.codeCompo == c
            then { r with moyenne := moyenneOf (fetchNotes noteStore m c) } else r)
          = moyStore := by
        have h2 := List.map_congr_left (l := moyStore)
          (f := fun r : MoyenneRow => if r.matriculEleve == m && r.codeCompo == c
            then { r with moyenne := moyenneOf (fetchNotes noteStore m c) } else r)
          (g := fun r : MoyenneRow => r)
          (fun r hr => by simp [hpred r hr])
        rw [h2]
        exact List.map_id' moyStore
      rw [h1]
      simp
    show CalcOutcome.ok 200 false (moyenneOf (fetchNotes noteStore m c))
        ((moyStore ++ [(⟨m, c, moyenneOf (fetchNotes noteStore m c)⟩ : MoyenneRow)]).map
          (fun r => if r.matriculEleve == m && r.codeCompo == c
            then { r with moyenne := moyenneOf (fetchNotes noteStore m c) } else r))
      = CalcOutcome.ok 200 false (moyenneOf (fetchNotes noteStore m c))
          (moyStore ++ [⟨m, c, moyenneOf (fetchNotes noteStore m c)⟩])
    rw [hmap]
  case found =>
    exact findMoyenne_append moyStore m c _ habsent

/-- Claim C6 witness: a concrete (student, composition) pair with one note
and no pre-existing `Average`. -/
theorem claim_C6_upsert_idempotent_witness :
    ∃ v store1,
      calculateMoyenne [⟨"E1", "EV1", "C1", 8, 2⟩] [] "E1" "C1" = .ok 201 true v store1
      ∧ calculateMoyenne [⟨"E1", "EV1", "C1", 8, 2⟩] store1 "E1" "C1" = .ok 200 false v store1
      ∧ findMoyenne store1 "E1" "C1" = some ⟨"E1", "C1", v⟩ :=
  claim_C6_upsert_idempotent [⟨"E1", "EV1", "C1", 8, 2⟩] [] "E1" "C1" (by decide) rfl

/-- Claim C3: a request naming the (student, composition) pair in the
`eleve`/`compos` fields the controller reads is rejected by
`moyenneCreateSchema` (surfacing, through the `new new` slip, as
`SERVER_ERROR`/500 rather than `NO_GRADES`/404), and every body the schema
does accept carries neither an `eleve` nor a `compos` field — so the
destructured pair is always `undefined` and the `NO_GRADES` path can never
be taken for the requested pair. -/
theorem claim_C3_no_grades_unreachable :
    (∀ (noteStore : List NoteRow) (moyStore : List MoyenneRow),
        calculateMoyenneRequest [("eleve", .str "E001"), ("compos", .str "CP01")]
          noteStore moyStore = .error "SERVER_ERROR" 500 moyStore
      ∧ calculateMoyenneRequest [("eleve", .str "E001"), ("compos", .str "CP01")]
          noteStore moyStore ≠ .error "NO_GRADES" 404 moyStore)
    ∧ (∀ body : JSObj, Validator.moyenneCreateSchema body = true →
        getKey body "eleve" = none ∧ getKey body "compos" = none) := by
  constructor
  · intro noteStore moyStore
    refine ⟨rfl, ?_⟩
    have h1 : calculateMoyenneRequest [("eleve", .str "E001"), ("compos", .str "CP01")]
        noteStore moyStore = .error "SERVER_ERROR" 500 moyStore := rfl
    rw [h1]
    simp
  · intro body hvalid
    have hall : body.all
        (fun kv => (["matriculEleve", "codeCompo", "moyenne"] : List String).contains kv.1)
        = true := by
      unfold Validator.moyenneCreateSchema at hvalid
      simp only [Bool.and_eq_true] at hvalid
      exact hvalid.1.1.1
    have hkeys : ∀ kv ∈ body, ∀ bad : String,
        (["matriculEleve", "codeCompo", "moyenne"] : List String).contains bad = false →
        kv.1 ≠ bad := by
      intro kv hkv bad hbad heq
      have hc := List.all_eq_true.mp hall kv hkv
      rw [heq, hbad] at hc
      exact Bool.false_ne_true hc
    constructor
    · unfold getKey
      rw [find_key_of_not_mem body "eleve" (fun kv hkv => hkeys kv hkv "eleve" (by decide))]
      rfl
    · unfold getKey
      rw [find_key_of_not_mem body "compos" (fun kv hkv => hkeys kv hkv "compos" (by decide))]
      rfl

/-- Claim C3 witness: a body that does satisfy `moyenneCreateSchema`, and
the fields the controller destructures from it. -/
theorem claim_C3_no_grades_unreachable_witness :
    (calculateMoyenneRequest [("eleve", .str "E001"), ("compos", .str "CP01")] [] []
        = .error "SERVER_ERROR" 500 [])
    ∧ getKey [("matriculEleve", .str "E001"), ("codeCompo", .str "CP01"),
        ("moyenne", .num 5)] "eleve" = none
    ∧ getKey [("matriculEleve", .str "E001"), ("codeCompo", .str "CP01"),
        ("moyenne", .num 5)] "compos" = none := by
  refine ⟨(claim_C3_no_grades_unreachable.1 [] []).1, ?_, ?_⟩
  · exact (claim_C3_no_grades_unreachable.2
      [("matriculEleve", .str "E001"), ("codeCompo", .str "CP01"), ("moyenne", .num 5)]
      (by decide)).1
  · exact (claim_C3_no_grades_unreachable.2
      [("matriculEleve", .str "E001"), ("codeCompo", .str "CP01"), ("moyenne", .num 5)]
      (by decide)).2

end Scolarix.MoyenneController

namespace Scolarix.NoteController

open Scolarix.Validator Scolarix.MoyenneController

/-- Claim C4: every create-Note body whose `note` value lies outside
`[0, 10]` is rejected by `noteCreateSchema` before any persistence (the
store is returned unchanged) — but, through the `new new ErrorResponse`
slip of `validator.js:31`, the surfaced failure is `SERVER_ERROR`/500, not
the documented `VALIDATION_ERROR`/400. -/
theorem claim_C4_note_range_rejection (body : JSObj) (noteStore : List NoteRow)
    (coefOf : String → ℚ) (q : ℚ)
    (hnote : getKey body "note" = some (.num q)) (hout : q < 0 ∨ 10 < q) :
    noteCreateSchema body = false
    ∧ createNote body noteStore coefOf = .error "SERVER_ERROR" 500 noteStore
    ∧ createNote body noteStore coefOf ≠ .error "VALIDATION_ERROR" 400 noteStore := by
  have hjoi : joiNumber 0 10 (.num q) = false := by
    unfold joiNumber
    rcases hout with hq | hq
    · have hd : decide ((0 : ℚ) ≤ q) = false := decide_eq_false (not_le.mpr hq)
      simp [hd]
    · have hd : decide (q ≤ (10 : ℚ)) = false := decide_eq_false (not_le.mpr hq)
      simp [hd]
  have hschema : noteCreateSchema body = false := by
    unfold noteCreateSchema
    rw [hnote]
    simp only [hjoi, Bool.and_false]
  have hrun : createNote body noteStore coefOf = .error "SERVER_ERROR" 500 noteStore := by
    unfold createNote Validator.validate
    rw [hschema]
    rfl
  refine ⟨hschema, hrun, ?_⟩
  rw [hrun]
  simp

/-- Claim C4 witness: the spec's example inputs — a note of 10.5 and a
note of −1 are both rejected before persistence, with the misreported
error. -/
theorem claim_C4_note_range_rejection_witness :
    (noteCreateSchema [("matriculEleve", .str "E001"), ("codeEva", .str "EV01"),
        ("codeCompo", .str "CP01"), ("note", .num (21 / 2))] = false
      ∧ createNote [("matriculEleve", .str "E001"), ("codeEva", .str "EV01"),
          ("codeCompo", .str "CP01"), ("note", .num (21 / 2))] [] (fun _ => 1)
        = .error "SERVER_ERROR" 500 []
      ∧ createNote [("matriculEleve", .str "E001"), ("codeEva", .str "EV01"),
          ("codeCompo", .str "CP01"), ("note", .num (21 / 2))] [] (fun _ => 1)
        ≠ .error "VALIDATION_ERROR" 400 [])
    ∧ noteCreateSchema [("matriculEleve", .str "E001"), ("codeEva", .str "EV01"),
        ("codeCompo", .str "CP01"), ("note", .num (-1))] = false := by
  constructor
  · exact claim_C4_note_range_rejection _ [] (fun _ => 1) (21 / 2) rfl
      (Or.inr (by norm_num))
  · exact (claim_C4_note_range_rejection
      [("matriculEleve", .str "E001"), ("codeEva", .str "EV01"),
        ("codeCompo", .str "CP01"), ("note", .num (-1))] [] (fun _ => 1) (-1) rfl
      (Or.inl (by norm_num))).1

end Scolarix.NoteController

namespace Scolarix.APIFeatures

/-- Claim C2 counterexample: the source scans for operator substrings with
`value.includes(...)` anywhere in the value, not for trailing tokens — so
the ne-operator value `neAdmin` is captured by the earlier `in` test and
becomes a membership predicate over `["neAdm"]` instead of a not-in
predicate over `["Admin"]`, and the plain value `pending` (no operator)
becomes a membership predicate over `["pendg"]` instead of exact
equality. -/
theorem claim_C2_filter_counterexample :
    condOf "neAdmin" = .inList ["neAdm"]
    ∧ condOf "neAdmin" ≠ .notIn ["Admin"]
    ∧ filter [("status", "pending")] = [("status", .inList ["pendg"])]
    ∧ filter [("status", "pending")] ≠ [("status", .eq "pending")] := by
  decide

/-- Claim C2 (amended): `filter()` maps every non-reserved parameter to
the predicate `condOf value` — chosen by scanning the value for the first
operator substring occurring anywhere in it, in source order gte, gt,
lte, lt, in, ne, with exact equality when none occurs — drops the reserved
control keys, and all built conditions conjoin (a row matches the plan iff
it satisfies the condition of every non-reserved parameter). The spec's
own examples parse as stated. -/
theorem claim_C2_filter_amended (qs : List (String × String))
    (hnd : (qs.map Prod.fst).Nodup) :
    (∀ k v, (k, v) ∈ qs → reservedKeys.contains k = false →
        lookupKey (filter qs) k = some (condOf v))
    ∧ (∀ k, reservedKeys.contains k = true → lookupKey (filter qs) k = none)
    ∧ (∀ row : String → Option JSVal,
        matchesWhere row (filter qs) = true ↔
          ∀ k v, (k, v) ∈ qs → reservedKeys.contains k = false →
            evalCond row (k, condOf v) = true)
    ∧ lookupKey (filter [("age", "gte18")]) "age" = some (.gte (some 18))
    ∧ lookupKey (filter [("role", "inTeacher,Administrator")]) "role"
        = some (.inList ["Teacher", "Administrator"])
    ∧ lookupKey (filter [("status", "neArchived")]) "status" = some (.notIn ["Archived"]) := by
  have hnd2 : (((qs.filter fun kv => !(reservedKeys.contains kv.1)).map
      (fun kv => (kv.1, condOf kv.2))).map Prod.fst).Nodup := by
    rw [List.map_map]
    have hcomp : (Prod.fst ∘ fun kv : String × String => (kv.1, condOf kv.2))
        = fun kv : String × String => kv.1 := funext (fun kv => rfl)
    rw [hcomp]
    exact List.Nodup.sublist ((List.filter_sublist qs).map _) hnd
  refine ⟨?present, ?reserved, ?conj, by decide, by decide, by decide⟩
  case present =>
    intro k v hmem hres
    rw [filter_eq_map qs hnd]
    unfold lookupKey
    rw [find_key_of_nodup _ k (condOf v) hnd2
      (List.mem_map.mpr ⟨(k, v), List.mem_filter.mpr
        ⟨hmem, by show (!(reservedKeys.contains k)) = true; rw [hres]; rfl⟩, rfl⟩)]
    rfl
  case reserved =>
    intro k hres
    rw [filter_eq_map qs hnd]
    unfold lookupKey
    rw [find_key_of_not_mem]
    · rfl
    · intro kv hkv
      rcases List.mem_map.mp hkv with ⟨kv0, hkv0, rfl⟩
      rcases List.mem_filter.mp hkv0 with ⟨_, hpred⟩
      intro heq
      rw [heq, hres] at hpred
      exact absurd hpred (by decide)
  case conj =>
    intro row
    unfold matchesWhere
    rw [filter_eq_map qs hnd, List.all_eq_true]
    constructor
    · intro hall k v hmem hres
      exact hall (k, condOf v)
        (List.mem_map.mpr ⟨(k, v), List.mem_filter.mpr
          ⟨hmem, by show (!(reservedKeys.contains k)) = true; rw [hres]; rfl⟩, rfl⟩)
    · intro hmem' x hx
      rcases List.mem_map.mp hx with ⟨kv0, hkv0, rfl⟩
      rcases List.mem_filter.mp hkv0 with ⟨hq, hpred⟩
      have hres0 : reservedKeys.contains kv0.1 = false := by
        cases hcontains : reservedKeys.contains kv0.1
        · rfl
        · rw [hcontains] at hpred
          exact absurd hpred (by decide)
      exact hmem' kv0.1 kv0.2 (by rw [Prod.mk.eta]; exact hq) hres0

/-- Claim C2 witness: the amended statement at a concrete two-parameter
query string with one reserved key. -/
theorem claim_C2_filter_amended_witness :
    lookupKey (filter [("age", "gte18"), ("page", "2")]) "age" = some (.gte (some 18))
    ∧ lookupKey (filter [("age", "gte18"), ("page", "2")]) "page" = none := by
  have h := claim_C2_filter_amended [("age", "gte18"), ("page", "2")] (by decide)
  exact ⟨h.1 "age" "gte18" (by decide) (by decide), h.2.1 "page" (by decide)⟩

/-- Claim C9: `paginate` coerces `page` to an integer of at least 1 (0 and
unparseable values both become 1), coerces `limit` to an integer capped at
1000 (5000 becomes 1000) and falling back to the caller-supplied default
page size when the parameter is absent or unparseable, and sets
`offset = (page − 1) × limit`; being a total function, it raises no error
on malformed input. -/
theorem claim_C9_paginate (pageP limitP : Option String) (rpp : Int) :
    1 ≤ (paginate pageP limitP rpp).page
    ∧ (pageP.bind parseIntJS = none → (paginate pageP limitP rpp).page = 1)
    ∧ (pageP.bind parseIntJS = some 0 → (paginate pageP limitP rpp).page = 1)
    ∧ (paginate (some "0") limitP rpp).page = 1
    ∧ (paginate pageP limitP rpp).limit ≤ 1000
    ∧ (paginate pageP (some "5000") rpp).limit = 1000
    ∧ (limitP.bind parseIntJS = none → (paginate pageP limitP rpp).limit = min rpp 1000)
    ∧ (limitP.bind parseIntJS = none → rpp ≤ 1000 → (paginate pageP limitP rpp).limit = rpp)
    ∧ (paginate pageP limitP rpp).offset
        = ((paginate pageP limitP rpp).page - 1) * (paginate pageP limitP rpp).limit := by
  refine ⟨le_max_right _ 1, ?_, ?_, ?_, min_le_right _ 1000, ?_, ?_, ?_, rfl⟩
  · intro h
    show max (jsOrInt (pageP.bind parseIntJS) 1) 1 = 1
    rw [h]
    rfl
  · intro h
    show max (jsOrInt (pageP.bind parseIntJS) 1) 1 = 1
    rw [h]
    rfl
  · rfl
  · rfl
  · intro h
    show min (jsOrInt (limitP.bind parseIntJS) rpp) 1000 = min rpp 1000
    rw [h]
    rfl
  · intro h hle
    show min (jsOrInt (limitP.bind parseIntJS) rpp) 1000 = rpp
    rw [h]
    exact min_eq_left hle

/-- Claim C9 witness: an unparseable `page` with an absent `limit`, the
capped `limit=5000`, and `page=0`, with default page size 10. -/
theorem claim_C9_paginate_witness :
    (paginate (some "abc") none 10).page = 1
    ∧ (paginate (some "abc") none 10).limit = 10
    ∧ (paginate (some "abc") (some "5000") 10).limit = 1000
    ∧ (paginate (some "0") none 10).page = 1 := by
  refine ⟨?_, ?_, ?_, ?_⟩
  · exact (claim_C9_paginate (some "abc") none 10).2.1 (by decide)
  · exact (claim_C9_paginate (some "abc") none 10).2.2.2.2.2.2.2.1 (by decide) (by decide)
  · exact (claim_C9_paginate (some "abc") (some "5000") 10).2.2.2.2.2.1
  · exact (claim_C9_paginate none none 10).2.2.2.1

/-- Claim C10: a strictly negative parsed `limit` passes through `paginate`
unchanged — the 1000 cap is only an upper bound, no lower bound of 1 is
enforced — making the offset negative for every page above 1; a `limit` of
exactly `0` is falsy in the source's `||` fallback and is replaced by the
caller-supplied default page size (itself capped at 1000). -/
theorem claim_C10_paginate (pageP limitP : Option String) (rpp : Int) :
    (∀ n : Int, limitP.bind parseIntJS = some n → n < 0 →
        (paginate pageP limitP rpp).limit = n
        ∧ (1 < (paginate pageP limitP rpp).page → (paginate pageP limitP rpp).offset < 0))
    ∧ (paginate pageP (some "0") rpp).limit = min rpp 1000
    ∧ (rpp ≤ 1000 → (paginate pageP (some "0") rpp).limit = rpp) := by
  have hzero : (some "0").bind parseIntJS = some 0 := by decide
  refine ⟨?neg, ?zero, ?zerodef⟩
  case neg =>
    intro n h hneg
    have hlimit : (paginate pageP limitP rpp).limit = n := by
      show min (jsOrInt (limitP.bind parseIntJS) rpp) 1000 = n
      rw [h]
      show min (if n = 0 then rpp else n) 1000 = n
      rw [if_neg (by omega)]
      exact min_eq_left (by omega)
    refine ⟨hlimit, ?_⟩
    intro hpage
    have hoffset : (paginate pageP limitP rpp).offset
        = ((paginate pageP limitP rpp).page - 1) * (paginate pageP limitP rpp).limit := rfl
    rw [hoffset, hlimit]
    exact mul_neg_of_pos_of_neg (by omega) hneg
  case zero =>
    show min (jsOrInt ((some "0").bind parseIntJS) rpp) 1000 = min rpp 1000
    rw [hzero]
    show min (if (0 : Int) = 0 then rpp else 0) 1000 = min rpp 1000
    rw [if_pos rfl]
  case zerodef =>
    intro hle
    show min (jsOrInt ((some "0").bind parseIntJS) rpp) 1000 = rpp
    rw [hzero]
    show min (if (0 : Int) = 0 then rpp else 0) 1000 = rpp
    rw [if_pos rfl]
    exact min_eq_left hle

/-- Claim C10 witness: `limit=-5` with `page=3` yields a plan limit of −5
and offset −10; `limit=0` with default page size 10 yields limit 10. -/
theorem claim_C10_paginate_witness :
    (paginate (some "3") (some "-5") 10).limit = -5
    ∧ (paginate (some "3") (some "-5") 10).offset < 0
    ∧ (paginate none (some "0") 10).limit = 10 := by
  have h := claim_C10_paginate (some "3") (some "-5") 10
  have h5 : (some "-5").bind parseIntJS = some (-5) := by decide
  refine ⟨(h.1 (-5) h5 (by norm_num)).1, (h.1 (-5) h5 (by norm_num)).2 (by decide), ?_⟩
  exact (claim_C10_paginate none (some "0") 10).2.2 (by norm_num)

end Scolarix.APIFeatures

namespace Scolarix.AuthMiddleware

/-- Claim C5 evaluation: with `ownershipRequired` set, `authorize` throws
the configuration error exactly when no `model` is supplied — even when a
custom `isOwner` predicate is configured, contradicting both the spec and
the error's own message; the predicate's verdict decides ownership only
when a `model` is also present. -/
theorem claim_C5_authorize_config (a : AuthInfo) (rid : Option String) :
    authorize []
      { ownershipRequired := true, ownerField := none, idParam := none,
        isOwner := some (fun _ _ => true), model := none } (some a) rid = .configError
    ∧ authorize []
      { ownershipRequired := true, ownerField := none, idParam := none,
        isOwner := some (fun _ _ => true), model := some [] } (some a) rid = .allowed
    ∧ authorize []
      { ownershipRequired := true, ownerField := none, idParam := none,
        isOwner := some (fun _ _ => false), model := some [] } (some a) rid
      = .ownershipDenied
    ∧ authorize []
      { ownershipRequired := true, ownerField := none, idParam := none,
        isOwner := none, model := none } (some a) rid = .configError :=
  ⟨rfl, rfl, rfl, rfl⟩

/-- Claim C5 witness: the configuration outcomes at a concrete Teacher
identity and resource id. -/
theorem claim_C5_authorize_config_witness :
    authorize []
      { ownershipRequired := true, ownerField := none, idParam := none,
        isOwner := some (fun _ _ => true), model := none }
      (some ⟨1, "prof", "Teacher", some "EC001"⟩) (some "R1") = .configError
    ∧ authorize []
      { ownershipRequired := true, ownerField := none, idParam := none,
        isOwner := some (fun _ _ => true), model := some [] }
      (some ⟨1, "prof", "Teacher", some "EC001"⟩) (some "R1") = .allowed :=
  ⟨(claim_C5_authorize_config ⟨1, "prof", "Teacher", some "EC001"⟩ (some "R1")).1,
   (claim_C5_authorize_config ⟨1, "prof", "Teacher", some "EC001"⟩ (some "R1")).2.1⟩

/-- Claim C8: `authenticate` answers 401 `AUTH_REQUIRED` without a bearer
token, 401 `TOKEN_EXPIRED` when the expiry check fails, 401
`TOKEN_MALFORMED` when signature verification fails, 401 `USER_NOT_FOUND`
when the verified token references a missing user, and otherwise attaches
the identity's userId, username, userRole and ecoleId to the request. -/
theorem claim_C8_authenticate (header : Option String) (secretPresent : Bool)
    (verify : String → VerifyOutcome) (userStore : List UserRow) :
    (extractToken header = none →
        authenticate header secretPresent verify userStore = .errorResp 401 "AUTH_REQUIRED")
    ∧ (∀ tok, extractToken header = some tok → secretPresent = true →
        verify tok = .expired →
        authenticate header secretPresent verify userStore
          = .errorResp 401 "TOKEN_EXPIRED")
    ∧ (∀ tok, extractToken header = some tok → secretPresent = true →
        verify tok = .malformed →
        authenticate header secretPresent verify userStore
          = .errorResp 401 "TOKEN_MALFORMED")
    ∧ (∀ tok uid, extractToken header = some tok → secretPresent = true →
        verify tok = .ok uid →
        userStore.find? (fun u => u.userId == uid) = none →
        authenticate header secretPresent verify userStore
          = .errorResp 401 "USER_NOT_FOUND")
    ∧ (∀ tok uid u, extractToken header = some tok → secretPresent = true →
        verify tok = .ok uid →
        userStore.find? (fun u2 => u2.userId == uid) = some u →
        authenticate header secretPresent verify userStore
          = .success ⟨u.userId, u.username, u.userRole, u.ecoleId⟩) := by
  refine ⟨?notoken, ?expired, ?malformed, ?nouser, ?ok⟩
  case notoken =>
    intro h
    unfold authenticate
    rw [h]
  case expired =>
    intro tok htok hsec hver
    unfold authenticate
    rw [htok, hsec]
    simp [hver]
  case malformed =>
    intro tok htok hsec hver
    unfold authenticate
    rw [htok, hsec]
    simp [hver]
  case nouser =>
    intro tok uid htok hsec hver hfind
    unfold authenticate
    rw [htok, hsec]
    simp [hver, hfind]
  case ok =>
    intro tok uid u htok hsec hver hfind
    unfold authenticate
    rw [htok, hsec]
    simp [hver, hfind]

/-- Claim C8 witness: each dispatch branch at concrete inputs. -/
theorem claim_C8_authenticate_witness :
    authenticate none true (fun _ => .malformed) [] = .errorResp 401 "AUTH_REQUIRED"
    ∧ authenticate (some "Bearer t1") true (fun _ => .expired) []
        = .errorResp 401 "TOKEN_EXPIRED"
    ∧ authenticate (some "Bearer t1") true (fun _ => .malformed) []
        = .errorResp 401 "TOKEN_MALFORMED"
    ∧ authenticate (some "Bearer t1") true (fun _ => .ok 7) []
        = .errorResp 401 "USER_NOT_FOUND"
    ∧ authenticate (some "Bearer t1") true (fun _ => .ok 7)
        [⟨7, "prof", "Teacher", some "EC001"⟩]
        = .success ⟨7, "prof", "Teacher", some "EC001"⟩ := by
  refine ⟨?_, ?_, ?_, ?_, ?_⟩
  · exact (claim_C8_authenticate none true (fun _ => .malformed) []).1 rfl
  · exact (claim_C8_authenticate (some "Bearer t1") true (fun _ => .expired) []).2.1
      "t1" rfl rfl rfl
  · exact (claim_C8_authenticate (some "Bearer t1") true (fun _ => .malformed) []).2.2.1
      "t1" rfl rfl rfl
  · exact (claim_C8_authenticate (some "Bearer t1") true (fun _ => .ok 7) []).2.2.2.1
      "t1" 7 rfl rfl rfl rfl
  · exact (claim_C8_authenticate (some "Bearer t1") true (fun _ => .ok 7)
      [⟨7, "prof", "Teacher", some "EC001"⟩]).2.2.2.2 "t1" 7
      ⟨7, "prof", "Teacher", some "EC001"⟩ rfl rfl rfl rfl

end Scolarix.AuthMiddleware

namespace Scolarix.ClasseController

open Scolarix.APIFeatures Scolarix.AuthMiddleware

/-- Claim C7: for a Teacher caller with a school, `getAll` narrows the
where-plan to that school by merging `{ ecoleId }` over the Query
Builder's conditions (overriding only that key, keeping every other filter
and the search block); a Teacher without a school (or whose user row is
gone) gets a successful empty listing (200, count 0); any other role runs
the Query Builder's plan unchanged. -/
theorem claim_C7_classe_getAll (auth : Option AuthInfo) (fetchedUser : Option UserRow)
    (qs : List (String × String)) :
    (∀ a u e, auth = some a → a.userRole = "Teacher" → fetchedUser = some u →
        u.ecoleId = some e →
        ∃ plan, getAll auth fetchedUser qs = .runQuery plan
          ∧ plan.searchBlock = (buildWhere qs ["libelle"]).searchBlock
          ∧ lookupKey plan.conds "ecoleId" = some (.eq e)
          ∧ ∀ k, k ≠ "ecoleId" →
              lookupKey plan.conds k = lookupKey (buildWhere qs ["libelle"]).conds k)
    ∧ (∀ a, auth = some a → a.userRole = "Teacher" → fetchedUser = none →
        getAll auth fetchedUser qs = .emptyOk 200 0 0)
    ∧ (∀ a u, auth = some a → a.userRole = "Teacher" → fetchedUser = some u →
        u.ecoleId = none → getAll auth fetchedUser qs = .emptyOk 200 0 0)
    ∧ ((auth.map (fun a => a.userRole)) ≠ some "Teacher" →
        getAll auth fetchedUser qs = .runQuery (buildWhere qs ["libelle"])) := by
  refine ⟨?teacher, ?nouser, ?noschool, ?other⟩
  case teacher =>
    intro a u e ha hrole hu he
    subst ha hu
    unfold getAll
    rw [if_pos (by simp [hrole])]
    simp only [he]
    refine ⟨_, rfl, rfl, ?_, ?_⟩
    · exact lookupKey_setKey_hit _ _ _
    · intro k hk
      exact lookupKey_setKey_miss _ _ _ k hk
  case nouser =>
    intro a ha hrole hu
    subst ha hu
    unfold getAll
    rw [if_pos (by simp [hrole])]
  case noschool =>
    intro a u ha hrole hu he
    subst ha hu
    unfold getAll
    rw [if_pos (by simp [hrole])]
    simp [he]
  case other =>
    intro h
    unfold getAll
    rw [if_neg h]

/-- Claim C7 witness: a Teacher of school EC001 listing classes with one
extra filter, and an Administrator with the same query. -/
theorem claim_C7_classe_getAll_witness :
    (∃ plan, getAll (some ⟨1, "prof", "Teacher", some "EC001"⟩)
        (some ⟨1, "prof", "Teacher", some "EC001"⟩) [("niveau", "CM2")] = .runQuery plan
      ∧ plan.searchBlock
          = (buildWhere [("niveau", "CM2")] ["libelle"]).searchBlock
      ∧ lookupKey plan.conds "ecoleId" = some (.eq "EC001")
      ∧ ∀ k, k ≠ "ecoleId" →
          lookupKey plan.conds k
            = lookupKey (buildWhere [("niveau", "CM2")] ["libelle"]).conds k)
    ∧ getAll (some ⟨2, "admin", "Administrator", none⟩) none [("niveau", "CM2")]
        = .runQuery (buildWhere [("niveau", "CM2")] ["libelle"]) := by
  constructor
  · exact (claim_C7_classe_getAll (some ⟨1, "prof", "Teacher", some "EC001"⟩)
      (some ⟨1, "prof", "Teacher", some "EC001"⟩) [("niveau", "CM2")]).1
      ⟨1, "prof", "Teacher", some "EC001"⟩ ⟨1, "prof", "Teacher", some "EC001"⟩
      "EC001" rfl rfl rfl rfl
  · exact (claim_C7_classe_getAll (some ⟨2, "admin", "Administrator", none⟩) none
      [("niveau", "CM2")]).2.2.2 (by simp)

end Scolarix.ClasseController
